import Mathlib

/-!
# Transaction Routing Gateway — verification development

Shallow embedding of the transaction-routing core of the repository
(`server/routers.ts`, `server/_core/currencies.ts`, the rate-limiter
middleware, and the drizzle schema), together with theorems settling the
frozen claims about it.

Conventions:
* TypeScript strings are Lean `String`s; `toLowerCase` and `trim` are
  modelled by the charwise `String.lower` and `String.strip` defined below,
  and `.length` by `String.length` (the data in scope is ASCII, where these
  agree with the JavaScript operations).
* JavaScript numbers that carry amounts are modelled as `ℚ`; `parseFloat`
  is an external JavaScript built-in and is passed to the transfer pipeline
  as a parameter `pf : String → Option ℚ`, `none` standing for `NaN`.
* Fallible TypeScript code (functions that `throw`) is modelled with
  `Except`/`Option`; an upstream HTTP interaction is an oracle value of
  type `Except String _` supplied to the pipeline.
-/

deriving instance DecidableEq for Except

/-- Model of JavaScript `String.prototype.toLowerCase` for the ASCII data in
scope (character-by-character, so that it evaluates in the kernel). -/
def String.lower (s : String) : String := ⟨s.data.map Char.toLower⟩

/-- Model of JavaScript `String.prototype.trim` for the ASCII data in scope:
drop leading and trailing whitespace. -/
def String.strip (s : String) : String :=
  ⟨((s.data.dropWhile Char.isWhitespace).reverse.dropWhile Char.isWhitespace).reverse⟩

namespace Invsol

/-! ## Address validation (`server/_core/currencies.ts`) -/

/-- The base58 character class `[1-9A-HJ-NP-Za-km-z]` used by the Solana,
Bitcoin-legacy, XRP and Tron patterns in `ADDRESS_PATTERNS`. -/
def isBase58Char (c : Char) : Bool :=
  ('1' ≤ c && c ≤ '9') || ('A' ≤ c && c ≤ 'H') || ('J' ≤ c && c ≤ 'N') ||
  ('P' ≤ c && c ≤ 'Z') || ('a' ≤ c && c ≤ 'k') || ('m' ≤ c && c ≤ 'z')

/-- Hexadecimal character class `[a-fA-F0-9]` from the EVM pattern. -/
def isHexChar (c : Char) : Bool :=
  ('0' ≤ c && c ≤ '9') || ('a' ≤ c && c ≤ 'f') || ('A' ≤ c && c ≤ 'F')

/-- Character class `[a-zA-HJ-NP-Z0-9]` from the Bech32 arm of the Bitcoin
pattern. -/
def isBech32Char (c : Char) : Bool :=
  ('a' ≤ c && c ≤ 'z') || ('A' ≤ c && c ≤ 'H') || ('J' ≤ c && c ≤ 'N') ||
  ('P' ≤ c && c ≤ 'Z') || ('0' ≤ c && c ≤ '9')

/-- `ADDRESS_PATTERNS.sol`: `^[1-9A-HJ-NP-Za-km-z]{32,44}$`. -/
def solPattern (s : String) : Bool :=
  32 ≤ s.length && s.length ≤ 44 && s.data.all isBase58Char

/-- `ADDRESS_PATTERNS.evm`: `^0x[a-fA-F0-9]{40}$`. -/
def evmPattern (s : String) : Bool :=
  match s.data with
  | '0' :: 'x' :: rest => rest.length == 40 && rest.all isHexChar
  | _ => false

/-- `ADDRESS_PATTERNS.btc`: legacy (`1…`), SegWit (`3…`) or Bech32
(`bc1…`) alternatives, each anchored. -/
def btcPattern (s : String) : Bool :=
  match s.data with
  | '1' :: rest => 25 ≤ rest.length && rest.length ≤ 34 && rest.all isBase58Char
  | '3' :: rest => 25 ≤ rest.length && rest.length ≤ 34 && rest.all isBase58Char
  | 'b' :: 'c' :: '1' :: rest => 39 ≤ rest.length && rest.length ≤ 59 && rest.all isBech32Char
  | _ => false

/-- `ADDRESS_PATTERNS.xrp`: `^r[1-9A-HJ-NP-Za-km-z]{24,34}$`. -/
def xrpPattern (s : String) : Bool :=
  match s.data with
  | 'r' :: rest => 24 ≤ rest.length && rest.length ≤ 34 && rest.all isBase58Char
  | _ => false

/-- `ADDRESS_PATTERNS.tron`: `^T[1-9A-HJ-NP-Za-km-z]{33}$`. -/
def tronPattern (s : String) : Bool :=
  match s.data with
  | 'T' :: rest => rest.length == 33 && rest.all isBase58Char
  | _ => false

/-- The keys of `ADDRESS_PATTERNS`. -/
inductive AddressType where
  | sol | evm | btc | xrp | tron
deriving DecidableEq, Repr

/-- Dispatch a pattern key to its regular-expression test. -/
def addressPatternTest : AddressType → String → Bool
  | .sol => solPattern
  | .evm => evmPattern
  | .btc => btcPattern
  | .xrp => xrpPattern
  | .tron => tronPattern

/-- `NETWORK_ADDRESS_TYPE`: map from network id to address-pattern key.
Lookup of a key absent from the record yields `none` (JavaScript
`undefined`). -/
def networkAddressType (networkId : String) : Option AddressType :=
  List.lookup networkId
    [("sol", .sol), ("eth", .evm), ("bsc", .evm), ("arbitrum", .evm),
     ("optimism", .evm), ("base", .evm), ("polygon", .evm), ("opbnb", .evm),
     ("btc", .btc), ("xrp", .xrp), ("trx", .tron), ("trc20", .tron),
     ("erc20", .evm)]

/-- `isValidAddress(address, networkId)` from `currencies.ts`: empty input
is rejected; a network id missing from `NETWORK_ADDRESS_TYPE` falls back to
`address.length >= 20`; otherwise the trimmed address is tested against the
network's pattern. -/
def isValidAddress (address networkId : String) : Bool :=
  if address = "" then false
  else
    match networkAddressType networkId.lower with
    | none => decide (20 ≤ address.length)
    | some t => addressPatternTest t address.strip

/-! ## Currency configuration (`server/_core/currencies.ts`) -/

structure NetworkConfig where
  id : String
  name : String
  addressPlaceholder : String
deriving DecidableEq, Repr

structure CurrencyConfig where
  ticker : String
  name : String
  symbol : String
  networks : List NetworkConfig
  defaultNetwork : String
  decimals : Nat
  minAmount : ℚ
deriving DecidableEq, Repr

/-- `SUPPORTED_CURRENCIES` from `currencies.ts`, verbatim. -/
def SUPPORTED_CURRENCIES : List CurrencyConfig :=
  [ { ticker := "sol", name := "Solana", symbol := "SOL",
      networks := [⟨"sol", "Solana", "Solana address (e.g., 7EqQ...)"⟩],
      defaultNetwork := "sol", decimals := 9, minAmount := mkRat 1 10 },
    { ticker := "btc", name := "Bitcoin", symbol := "BTC",
      networks := [⟨"btc", "Bitcoin", "Bitcoin address (e.g., bc1q... or 1...)"⟩],
      defaultNetwork := "btc", decimals := 8, minAmount := mkRat 5 10000 },
    { ticker := "eth", name := "Ethereum", symbol := "ETH",
      networks := [⟨"eth", "Ethereum", "ETH address (0x...)"⟩,
                   ⟨"arbitrum", "Arbitrum", "Arbitrum address (0x...)"⟩,
                   ⟨"optimism", "Optimism", "Optimism address (0x...)"⟩,
                   ⟨"base", "Base", "Base address (0x...)"⟩],
      defaultNetwork := "eth", decimals := 18, minAmount := mkRat 5 1000 },
    { ticker := "bnb", name := "BNB", symbol := "BNB",
      networks := [⟨"bsc", "BNB Smart Chain", "BSC address (0x...)"⟩,
                   ⟨"opbnb", "opBNB", "opBNB address (0x...)"⟩],
      defaultNetwork := "bsc", decimals := 18, minAmount := mkRat 1 100 },
    { ticker := "xrp", name := "XRP", symbol := "XRP",
      networks := [⟨"xrp", "XRP Ledger", "XRP address (r...)"⟩],
      defaultNetwork := "xrp", decimals := 6, minAmount := 10 },
    { ticker := "usdt", name := "Tether", symbol := "USDT",
      networks := [⟨"eth", "Ethereum (ERC20)", "ETH address (0x...)"⟩,
                   ⟨"trx", "Tron (TRC20)", "Tron address (T...)"⟩,
                   ⟨"bsc", "BNB Smart Chain", "BSC address (0x...)"⟩,
                   ⟨"sol", "Solana", "Solana address"⟩,
                   ⟨"polygon", "Polygon", "Polygon address (0x...)"⟩,
                   ⟨"arbitrum", "Arbitrum", "Arbitrum address (0x...)"⟩,
                   ⟨"optimism", "Optimism", "Optimism address (0x...)"⟩],
      defaultNetwork := "eth", decimals := 6, minAmount := 10 },
    { ticker := "usdc", name := "USD Coin", symbol := "USDC",
      networks := [⟨"eth", "Ethereum (ERC20)", "ETH address (0x...)"⟩,
                   ⟨"polygon", "Polygon", "Polygon address (0x...)"⟩,
                   ⟨"sol", "Solana", "Solana address"⟩,
                   ⟨"arbitrum", "Arbitrum", "Arbitrum address (0x...)"⟩,
                   ⟨"base", "Base", "Base address (0x...)"⟩],
      defaultNetwork := "eth", decimals := 6, minAmount := 10 } ]

/-- `getCurrency(ticker)`: case-insensitive find over the supported list. -/
def getCurrency (ticker : String) : Option CurrencyConfig :=
  SUPPORTED_CURRENCIES.find? fun c => c.ticker.lower == ticker.lower

/-- `getNetwork(ticker, networkId)`: case-insensitive find over the
currency's networks. -/
def getNetwork (ticker networkId : String) : Option NetworkConfig :=
  match getCurrency ticker with
  | none => none
  | some currency => currency.networks.find? fun n => n.id.lower == networkId.lower

/-- `getAddressValidationError(networkId)` from `currencies.ts`. -/
def getAddressValidationError (networkId : String) : String :=
  match networkAddressType networkId.lower with
  | some .sol => "Invalid Solana address. Must be a valid Base58 address (32-44 characters)"
  | some .evm => "Invalid address. Must start with 0x followed by 40 hexadecimal characters"
  | some .btc => "Invalid Bitcoin address. Must be a valid Legacy (1...), SegWit (3...), or Bech32 (bc1...) address"
  | some .xrp => "Invalid XRP address. Must start with 'r' followed by 24-34 characters"
  | some .tron => "Invalid Tron address. Must start with 'T' followed by 33 characters"
  | none => "Invalid address format"

/-! ## The transfer mutation (`server/routers.ts`, `transaction.transfer`) -/

/-- The transfer payload after tRPC decoding: `{recipientAddress, amount,
currency, network}`, all strings (the empty string stands for a JavaScript
falsy/absent field, as tested by `!payload.recipientAddress` etc.). -/
structure TransferPayload where
  recipientAddress : String
  amount : String
  currency : String
  network : String
deriving DecidableEq, Repr

/-- `const currency = (payload.currency || "sol").toLowerCase()`. -/
def effCurrency (p : TransferPayload) : String :=
  (if p.currency = "" then "sol" else p.currency).lower

/-- `const network = (payload.network || currency).toLowerCase()`. -/
def effNetwork (p : TransferPayload) : String :=
  (if p.network = "" then effCurrency p else p.network).lower

/-- The recipient-address gate of the transfer mutation:
`isValidAddress(payload.recipientAddress, network)`. -/
def transferAddressCheck (p : TransferPayload) : Bool :=
  isValidAddress p.recipientAddress (effNetwork p)

/-- The `address` field sent upstream:
`payload.recipientAddress.trim()` (routers.ts line 442). -/
def addrParam (p : TransferPayload) : String :=
  p.recipientAddress.strip

/-- Errors surfaced by the transfer mutation, tagged with the `TRPCError`
code they are thrown with. -/
inductive TransferError where
  | badRequest (msg : String)
  | internal (msg : String)
deriving DecidableEq, Repr

/-- The validation phase of the transfer mutation, in source order:
missing-payload check, currency support, network support for the currency,
recipient address format, `parseFloat` result (`NaN` or non-positive), and
the currency's minimum amount.  Returns the first error hit, or `none` when
every check passes.  `pf` is the numeric semantics of `parseFloat`. -/
def transferValidate (pf : String → Option ℚ) (p : TransferPayload) : Option TransferError :=
  if p.recipientAddress = "" ∨ p.amount = "" then
    some (.badRequest "Missing transfer payload (recipientAddress, amount)")
  else
    match getCurrency (effCurrency p) with
    | none => some (.badRequest ("Unsupported currency: " ++ effCurrency p))
    | some currencyConfig =>
      match getNetwork (effCurrency p) (effNetwork p) with
      | none => some (.badRequest ("Unsupported network " ++ effNetwork p ++ " for " ++ currencyConfig.symbol))
      | some _ =>
        if transferAddressCheck p = false then
          some (.badRequest (getAddressValidationError (effNetwork p)))
        else
          match pf p.amount with
          | none => some (.badRequest "Invalid amount")
          | some amount =>
            if amount ≤ 0 then some (.badRequest "Invalid amount")
            else if amount < currencyConfig.minAmount then
              some (.badRequest ("Minimum amount is " ++ currencyConfig.symbol))
            else none

/-- Decoded body of a successful upstream create response (ChangeNow
`POST /v2/exchange`). -/
structure CreateResponseData where
  id : String
  payinAddress : String
  payoutAddress : String
  fromAmount : ℚ
  toAmount : ℚ
deriving DecidableEq, Repr

/-- Modelled from the spec: `createRoutingTransaction` in
`server/_core/changenow.ts` is not under `src/`; its response validation is
reconstructed from spec §4.3/§7 and the code snippets quoted in the audit
document (`src/unnamed/part_005`, "Issues fixed" 1–2): a missing or invalid
transaction id, a missing deposit address, a deposit address that fails the
Solana `PublicKey` constructor (`payinFormatOk`, an external-library
check), or a payout address that is absent or differs from
`params.address.trim()` each abort with an error; otherwise the decoded
data is returned.  `http` is the outcome of the HTTP exchange itself
(errors cover network failures, non-retryable 4xx and exhausted 5xx
retries). -/
def createRoutingTransaction (address : String) (http : Except String CreateResponseData)
    (payinFormatOk : Bool) : Except String CreateResponseData :=
  match http with
  | .error m => .error m
  | .ok data =>
    if data.id = "" then
      .error "Invalid response: missing or invalid transaction ID"
    else if data.payinAddress = "" then
      .error "Invalid response: missing or invalid deposit address"
    else if payinFormatOk = false then
      .error "Invalid deposit address format received - not a valid Solana address"
    else if data.payoutAddress = "" ∨ data.payoutAddress ≠ address.strip then
      .error "Invalid response: payout address mismatch - security validation failed"
    else .ok data

/-- Rows written by the persistence phase of the transfer mutation:
the routing mapping (`storeRoutingTransactionId`) and the local transaction
record (`db.createTransaction`). -/
inductive PersistEvent where
  | routingMapping (txSignature routingTransactionId : String)
  | transactionRecord (txSignature recipientPublicKey payinAddress amount : String)
deriving DecidableEq, Repr

/-- Environment of one run of the transfer mutation: the upstream HTTP
outcome, the external payin-address format check, the generated reference
(`NR-` + nanoid), and whether each of the two persistence writes succeeds
(`false` = the write throws). -/
structure TransferEnv where
  http : Except String CreateResponseData
  payinFormatOk : Bool
  genRef : String
  mappingWriteOk : Bool
  recordWriteOk : Bool
deriving Repr

/-- Sanitized success payload returned to the client. -/
structure TransferSuccess where
  txSignature : String
  payinAddress : String
  routingTransactionId : String
  network : String
  recipientAddress : String
deriving DecidableEq, Repr

/-- Full outcome of one run of the transfer mutation: the client-visible
result, whether the upstream create call was dispatched, and the rows
actually persisted (in write order). -/
structure TransferResult where
  outcome : Except TransferError TransferSuccess
  upstreamCalled : Bool
  writes : List PersistEvent
deriving Repr

/-- The `transaction.transfer` mutation (`routers.ts` lines 361–497):
validation, then the queued upstream create (errors become
`INTERNAL_SERVER_ERROR`), then best-effort persistence — the routing
mapping first, the transaction record second, both inside a `try` whose
failure is only logged — and finally the success response carrying the
generated reference, the deposit address and the upstream id. -/
def transfer (pf : String → Option ℚ) (p : TransferPayload) (env : TransferEnv) : TransferResult :=
  match transferValidate pf p with
  | some e => ⟨.error e, false, []⟩
  | none =>
    match createRoutingTransaction (addrParam p) env.http env.payinFormatOk with
    | .error m => ⟨.error (.internal m), true, []⟩
    | .ok data =>
      let userTxRef := env.genRef
      let writes :=
        if env.mappingWriteOk then
          .routingMapping userTxRef data.id ::
            (if env.recordWriteOk then
              [.transactionRecord userTxRef p.recipientAddress data.payinAddress p.amount]
            else [])
        else []
      ⟨.ok ⟨userTxRef, data.payinAddress, data.id, effNetwork p, p.recipientAddress⟩, true, writes⟩

/-! ## The public status operation (`server/routers.ts`, `transaction.getRoutingStatus`) -/

/-- Raw body of an upstream `GET /v2/exchange/{id}` response. -/
structure RawStatusData where
  status : String
  fromAmount : ℚ
  toAmount : ℚ
  payoutHash : Option String
  createdAt : String
  updatedAt : String
deriving DecidableEq, Repr

/-- Sanitized view returned by `getRoutingStatus`. -/
structure RoutingStatusView where
  status : String
  fromAmount : ℚ
  toAmount : ℚ
  payoutHash : Option String
  createdAt : String
  updatedAt : String
deriving DecidableEq, Repr

/-- `rawStatus.payoutHash ? slice(0,16) + "..." : undefined` — a falsy
(absent or empty) hash stays hidden, otherwise it is truncated. -/
def truncateHash : Option String → Option String
  | none => none
  | some h => if h = "" then none else some (h.take 16 ++ "...")

/-- The catch-branch response of `getRoutingStatus`: a pre-terminal
"waiting" view with zero amounts, timestamped with the current time. -/
def waitingView (now : String) : RoutingStatusView :=
  ⟨"waiting", 0, 0, none, now, now⟩

/-- `transaction.getRoutingStatus` (`routers.ts` lines 626–661): the queued
upstream lookup either yields a raw status — returned with its `status`
string untouched and only the payout hash truncated — or throws, in which
case the catch block returns the `waiting` view instead of propagating the
error.  `lookup` is the outcome of `queueGetTransactionStatus` and `now`
the current ISO timestamp. -/
def getRoutingStatus (now : String) (lookup : Except String RawStatusData) : RoutingStatusView :=
  match lookup with
  | .ok raw => ⟨raw.status, raw.fromAmount, raw.toAmount, truncateHash raw.payoutHash,
                raw.createdAt, raw.updatedAt⟩
  | .error _ => waitingView now

/-- The status-normalization table of spec §4.4, stated from the spec's
words (for comparison with the code): `waiting/confirming/exchanging/sending
→ pending`, `finished → confirmed`, `failed/refunded/expired → failed`. -/
def specStatusNormalization (upstream : String) : Option String :=
  List.lookup upstream
    [("waiting", "pending"), ("confirming", "pending"), ("exchanging", "pending"),
     ("sending", "pending"), ("finished", "confirmed"), ("failed", "failed"),
     ("refunded", "failed"), ("expired", "failed")]

/-- `getStatusDisplay` from `client/src/pages/Home.tsx` (label and progress
of the raw status vocabulary as rendered by the client). -/
def getStatusDisplay (status : String) : String × Nat :=
  if status = "waiting" then ("AWAITING DEPOSIT", 10)
  else if status = "confirming" then ("VERIFYING", 30)
  else if status = "exchanging" then ("BRIDGING", 50)
  else if status = "sending" then ("DELIVERING", 75)
  else if status = "finished" then ("DELIVERED", 100)
  else if status = "failed" then ("FAILED", 0)
  else if status = "refunded" then ("RETURNED", 0)
  else if status = "expired" then ("EXPIRED", 0)
  else ("INITIALIZING", 5)

/-! ## The explicit confirmation path (`server/routers.ts`, `transaction.confirmTransaction`) -/

/-- The `status` enum of the `transactions` table (`drizzle/schema.ts`). -/
inductive TxStatus where
  | pending | confirmed | failed
deriving DecidableEq, Repr

/-- The slice of a `transactions` row touched by the confirmation path. -/
structure TxRecord where
  status : TxStatus
  errorMessage : Option String
deriving DecidableEq, Repr

/-- A view of the `transactions` table keyed by `txSignature`. -/
def TxStore : Type := String → Option TxRecord

/-- Modelled from the spec: `db.updateTransactionStatus` lives in
`server/db.ts`, which is not under `src/`; per the spec's data model (§3)
it is the durable write that sets a transaction record's `status` and
`errorMessage`, keyed by `txSignature` — a plain update with no condition
on the current status. -/
def updateTransactionStatus (store : TxStore) (sig : String) (st : TxStatus)
    (err : Option String) : TxStore :=
  fun s => if s = sig then (store s).map (fun _ => ⟨st, err⟩) else store s

/-- Errors thrown by `confirmTransaction`, tagged with their `TRPCError`
code. -/
inductive ConfirmError where
  | notFound
  | internal (msg : String)
deriving DecidableEq, Repr

/-- `transaction.confirmTransaction` (`routers.ts` lines 664–697): look the
record up by signature (absent → `NOT_FOUND`), ask the chain collaborator
whether the signature confirmed (`chain`, an oracle: `error` = the check
threw), and write `confirmed` or `failed` accordingly — the current status
of the record is never consulted. -/
def confirmTransaction (store : TxStore) (sig : String) (chain : Except String Bool) :
    Except ConfirmError (TxStore × Bool) :=
  match store sig with
  | none => .error .notFound
  | some _ =>
    match chain with
    | .error m => .error (.internal m)
    | .ok confirmed =>
      .ok (updateTransactionStatus store sig (if confirmed then .confirmed else .failed)
             (if confirmed then none else some "Transaction failed to confirm"),
           confirmed)

/-! ## The routing-mapping table (`drizzle/schema.ts`, migration 0005) -/

/-- A row of `transaction_routing`. -/
structure RoutingRow where
  txSignature : String
  routingTransactionId : String
deriving DecidableEq, Repr

/-- Whether the schema declares a storage-layer uniqueness constraint on
`transaction_routing.txSignature`: it does, both in
`drizzle/schema.ts` (`.notNull().unique()`) and in migration
`0005_add_transaction_routing_and_constraints.sql`
(`"txSignature" VARCHAR(128) NOT NULL UNIQUE`). -/
def routingTxSignatureUnique : Bool := true

/-- Insert semantics of a column carrying a SQL `UNIQUE` constraint: the
database serializes the inserts and rejects any row whose `txSignature`
already occurs, regardless of which application instance issued it. -/
def routingInsert (tbl : List RoutingRow) (row : RoutingRow) : Except String (List RoutingRow) :=
  if routingTxSignatureUnique && tbl.any (fun r => r.txSignature == row.txSignature) then
    .error "duplicate key value violates unique constraint"
  else .ok (tbl ++ [row])

/-- Outcome of an arbitrary sequence of insert attempts (any serialization
of any set of concurrent attempts): rejected inserts leave the table
unchanged. -/
def applyRoutingInserts (tbl : List RoutingRow) : List RoutingRow → List RoutingRow
  | [] => tbl
  | row :: rest =>
    match routingInsert tbl row with
    | .ok tbl' => applyRoutingInserts tbl' rest
    | .error _ => applyRoutingInserts tbl rest

/-- Number of rows of the table mapping a given internal reference. -/
def refCount (tbl : List RoutingRow) (ref : String) : Nat :=
  tbl.countP (fun r => r.txSignature == ref)

/-! ## The inbound rate limiter (`server/_core/rateLimiter.ts`, `src/unnamed/part_004`) -/

/-- One per-client entry of the in-memory store. -/
structure RLEntry where
  count : Nat
  resetTime : Nat
deriving DecidableEq, Repr

/-- The in-memory `store`, keyed by client id. -/
def RLStore : Type := String → Option RLEntry

/-- Response of one pass through the middleware: `next()` with the
rate-limit headers, or a rejection `res.status(429).json({retryAfter})`. -/
inductive RLResult where
  | allowed (remaining : Nat)
  | rejected (status : Nat) (retryAfter : Nat)
deriving DecidableEq, Repr

/-- One request through the middleware returned by `createRateLimiter`
(times in milliseconds): an absent or expired entry is re-created with
`count = 0` and `resetTime = now + windowMs`; the count is incremented;
a count above `maxRequests` is rejected with HTTP 429 and
`retryAfter = Math.ceil((resetTime - now) / 1000)` seconds. -/
def rateLimitStep (windowMs maxRequests : Nat) (store : RLStore) (clientId : String)
    (now : Nat) : RLStore × RLResult :=
  let entry :=
    match store clientId with
    | some e => if e.resetTime < now then RLEntry.mk 0 (now + windowMs) else e
    | none => RLEntry.mk 0 (now + windowMs)
  let entry' : RLEntry := ⟨entry.count + 1, entry.resetTime⟩
  let store' : RLStore := fun c => if c = clientId then some entry' else store c
  if maxRequests < entry'.count then
    (store', .rejected 429 ((entry'.resetTime - now + 999) / 1000))
  else
    (store', .allowed (maxRequests - entry'.count))

/-- A sequence of requests from one client, processed in order; returns the
final store and the per-request results. -/
def runRateLimiter (windowMs maxRequests : Nat) (clientId : String) (store : RLStore) :
    List Nat → RLStore × List RLResult
  | [] => (store, [])
  | t :: rest =>
    let (store', r) := rateLimitStep windowMs maxRequests store clientId t
    let (store'', rs) := runRateLimiter windowMs maxRequests clientId store' rest
    (store'', r :: rs)

/-- The sweep run by the `setInterval(…, 60000)` cleanup: every entry whose
`resetTime` is in the past is deleted from the store. -/
def cleanupStore (store : RLStore) (now : Nat) : RLStore :=
  fun c =>
    match store c with
    | some e => if e.resetTime < now then none else some e
    | none => none

/-- The `windowMs`/`maxRequests` configuration of `transactionRateLimiter`
(10 requests per 60 000 ms). -/
def transactionRateLimiterWindowMs : Nat := 60000

def transactionRateLimiterMaxRequests : Nat := 10

/-! ## The outbound request queue (`server/_core/apiQueue.ts`, absent from `src/`) -/

/-- Modelled from the spec: `apiQueue.ts` is not under `src/`.  Per spec
§4.1 the dispatcher drains the queue at a fixed cadence of one dispatch
slot every `1/max_rate` interval, and per `CONCURRENCY_FIXES.md` the rate
is 25 requests/second — one slot every 40 ms. -/
def apiQueueMinIntervalMs : Nat := 40

/-- The configured outbound ceiling (25 requests/second). -/
def apiQueueRatePerSecond : Nat := 25

/-- The upstream service's documented limit (30 requests/second,
`CONCURRENCY_FIXES.md`). -/
def upstreamDocumentedLimitPerSecond : Nat := 30

/-- Number of dispatches that fall inside the half-open window
`[T, T + W)`, for a dispatch schedule `times : Nat → Nat` (millisecond
timestamps of the 1st, 2nd, … dispatched call) cut off at `N` calls. -/
def dispatchesInWindow (times : Nat → Nat) (N T W : Nat) : Nat :=
  ((Finset.range N).filter fun k => T ≤ times k ∧ times k < T + W).card

/-! ## Theorems -/

/-- C2: For every input reference, the public status operation
(`getRoutingStatus`) never throws: it is a total function into
`RoutingStatusView`, and whenever the upstream lookup fails for any reason
(transaction not found, not yet indexed, network or API error — all of
which surface as `Except.error` of `queueGetTransactionStatus`), it
returns the `waiting` view with zero `fromAmount` and `toAmount` instead
of propagating the error; in particular the status of a non-existent
reference is `waiting`. -/
theorem getRoutingStatus_never_throws (now e : String) :
    getRoutingStatus now (.error e) = waitingView now ∧
    (waitingView now).status = "waiting" ∧
    (waitingView now).fromAmount = 0 ∧
    (waitingView now).toAmount = 0 :=
  ⟨rfl, rfl, rfl, rfl⟩

/-- C5, counterexample: the claim says the returned status is the image of
the raw upstream status under the spec's normalization table, but on an
upstream response with status `"finished"` the operation returns
`"finished"` itself, not its image `"confirmed"`. -/
theorem getRoutingStatus_not_normalized_counterexample :
    (getRoutingStatus "t" (.ok ⟨"finished", 1, 1, some "abcdef0123456789deadbeef", "c", "u"⟩)).status
        = "finished" ∧
    specStatusNormalization "finished" = some "confirmed" ∧
    (getRoutingStatus "t" (.ok ⟨"finished", 1, 1, some "abcdef0123456789deadbeef", "c", "u"⟩)).status
        ≠ "confirmed" := by
  refine ⟨rfl, rfl, ?_⟩
  decide

/-- C5, amended: the public status operation passes the raw upstream status
string through verbatim (no normalization to the coarse
pending/confirmed/failed vocabulary), and its output shape is
`{status, fromAmount, toAmount, payoutHash?, createdAt, updatedAt}` with the
payout hash truncated to 16 characters plus an ellipsis when present. -/
theorem getRoutingStatus_passes_raw_status (now : String) (raw : RawStatusData) :
    getRoutingStatus now (.ok raw) =
      ⟨raw.status, raw.fromAmount, raw.toAmount, truncateHash raw.payoutHash,
       raw.createdAt, raw.updatedAt⟩ :=
  rfl

/-- C10: for every network id absent from `NETWORK_ADDRESS_TYPE`,
`isValidAddress` performs no pattern check and accepts exactly the strings
of length at least 20; consequently the transfer mutation's
recipient-address gate (`transferAddressCheck`, the check `transfer`
delegates to) degrades to that bare length check for such networks. -/
theorem isValidAddress_unknown_network_length_check :
    (∀ address networkId : String, networkAddressType networkId.lower = none →
        isValidAddress address networkId = decide (20 ≤ address.length)) ∧
    (∀ p : TransferPayload, networkAddressType (effNetwork p).lower = none →
        transferAddressCheck p = decide (20 ≤ p.recipientAddress.length)) := by
  have h1 : ∀ address networkId : String, networkAddressType networkId.lower = none →
      isValidAddress address networkId = decide (20 ≤ address.length) := by
    intro address networkId h
    unfold isValidAddress
    rw [h]
    by_cases ha : address = ""
    · subst ha
      simp
    · simp [ha]
  exact ⟨h1, fun p h => h1 p.recipientAddress (effNetwork p) h⟩

/-- Witness for C10 at a concrete input: `"dogecoin"` is not a key of
`NETWORK_ADDRESS_TYPE`, and a 20-character string of any shape is accepted
for it. -/
theorem isValidAddress_unknown_network_length_check_witness :
    networkAddressType (String.lower "dogecoin") = none ∧
    isValidAddress "12345678901234567890" "dogecoin" = decide (20 ≤ (20 : Nat)) :=
  ⟨by decide, by
    rw [isValidAddress_unknown_network_length_check.1 "12345678901234567890" "dogecoin" (by decide)]
    decide⟩

/-- A transactions-table view with a single record, already terminal
(`failed`), used to exercise the confirmation path. -/
def failedStore : TxStore :=
  fun s => if s = "NR-1" then some ⟨.failed, some "Transaction failed to confirm"⟩ else none

/-- C6, counterexample: `confirmTransaction` consults only the chain
collaborator, never the record's current status; run against a record whose
status is already terminal (`failed`) with a chain check that reports
success, it overwrites the terminal status with `confirmed` — a
failed → confirmed transition, which the claim rules out. -/
theorem confirmTransaction_overwrites_terminal_counterexample :
    failedStore "NR-1" = some ⟨.failed, some "Transaction failed to confirm"⟩ ∧
    (confirmTransaction failedStore "NR-1" (.ok true)).map (fun r => r.1 "NR-1") =
      .ok (some ⟨.confirmed, none⟩) ∧
    TxStatus.failed ≠ TxStatus.confirmed := by
  refine ⟨by decide, by decide, by decide⟩

/-- C6, amended: `confirmTransaction` looks the record up by signature and,
when the chain collaborator answers, unconditionally writes `confirmed` or
`failed` according to that answer — the current status, terminal or not, is
never consulted, so an already-terminal status can be overwritten in either
direction. -/
theorem confirmTransaction_unconditional_write (store : TxStore) (sig : String)
    (r : TxRecord) (c : Bool) (h : store sig = some r) :
    confirmTransaction store sig (.ok c) =
      .ok (updateTransactionStatus store sig (if c then .confirmed else .failed)
             (if c then none else some "Transaction failed to confirm"), c) ∧
    (updateTransactionStatus store sig (if c then .confirmed else .failed)
       (if c then none else some "Transaction failed to confirm")) sig =
      some ⟨if c then .confirmed else .failed,
            if c then none else some "Transaction failed to confirm"⟩ := by
  constructor
  · simp [confirmTransaction, h]
  · simp [updateTransactionStatus, h]

/-- Witness for C6's amended theorem: a record that is already `confirmed`
is rewritten to `failed` when the chain check answers `false`. -/
theorem confirmTransaction_unconditional_write_witness :
    (fun s => if s = "NR-2" then some (TxRecord.mk .confirmed none) else none) "NR-2" =
        some ⟨.confirmed, none⟩ ∧
    confirmTransaction (fun s => if s = "NR-2" then some ⟨.confirmed, none⟩ else none)
        "NR-2" (.ok false) =
      .ok (updateTransactionStatus
             (fun s => if s = "NR-2" then some ⟨.confirmed, none⟩ else none) "NR-2"
             (if false then .confirmed else .failed)
             (if false then none else some "Transaction failed to confirm"), false) :=
  ⟨by decide,
   (confirmTransaction_unconditional_write
      (fun s => if s = "NR-2" then some ⟨.confirmed, none⟩ else none) "NR-2"
      ⟨.confirmed, none⟩ false (by decide)).1⟩

/-- C7: for any internal reference, at most one `transaction_routing` row
ever exists: the `txSignature` column carries a storage-layer `UNIQUE`
constraint (declared in `drizzle/schema.ts` and in migration 0005), whose
insert semantics rejects duplicates under any serialization of any set of
concurrent insert attempts — so the at-most-one invariant is preserved by
every sequence of attempts, with no application-level locking. -/
theorem routingMapping_at_most_one (tbl : List RoutingRow) (attempts : List RoutingRow)
    (ref : String) (h : refCount tbl ref ≤ 1) :
    refCount (applyRoutingInserts tbl attempts) ref ≤ 1 := by
  induction attempts generalizing tbl with
  | nil => simpa [applyRoutingInserts] using h
  | cons row rest ih =>
    unfold applyRoutingInserts
    rcases hins : routingInsert tbl row with m | tbl'
    · exact ih tbl h
    · refine ih tbl' ?_
      unfold routingInsert at hins
      split at hins
      · cases hins
      · next hdup =>
        cases hins
        simp only [routingTxSignatureUnique, Bool.true_and, List.any_eq_true, not_exists,
          not_and] at hdup
        by_cases hrr : row.txSignature == ref
        · have hz : refCount tbl ref = 0 := by
            rw [refCount, List.countP_eq_zero]
            intro r hr
            have := hdup r hr
            simp only [beq_iff_eq] at hrr this ⊢
            intro hcontra
            exact this (hcontra.trans hrr.symm)
          rw [refCount, List.countP_append]
          rw [refCount] at hz
          simp only [hz, List.countP_cons, List.countP_nil, Nat.zero_add]
          split <;> omega
        · rw [refCount, List.countP_append]
          rw [refCount] at h
          simpa [List.countP_cons, hrr] using h

/-- Witness for C7: two concurrent attempts to insert a mapping for the
same reference `"NR-a"` into an empty table leave at most one row. -/
theorem routingMapping_at_most_one_witness :
    refCount [] "NR-a" ≤ 1 ∧
    refCount (applyRoutingInserts []
      [⟨"NR-a", "cn-1"⟩, ⟨"NR-a", "cn-2"⟩]) "NR-a" ≤ 1 :=
  ⟨by decide,
   routingMapping_at_most_one [] [⟨"NR-a", "cn-1"⟩, ⟨"NR-a", "cn-2"⟩] "NR-a" (by decide)⟩

/-- Every early exit of the validation phase is a `BAD_REQUEST` error. -/
lemma transferValidate_badRequest (pf : String → Option ℚ) (p : TransferPayload) :
    transferValidate pf p = none ∨ ∃ m, transferValidate pf p = some (.badRequest m) := by
  unfold transferValidate
  repeat' split
  all_goals first
    | exact Or.inl rfl
    | exact Or.inr ⟨_, rfl⟩

/-- When the validation phase passes, every one of its checks passed: the
payload fields are non-empty, the currency and network are supported, the
recipient address validates, and the parsed amount is positive and at least
the currency's minimum. -/
lemma transferValidate_none_facts (pf : String → Option ℚ) (p : TransferPayload)
    (h : transferValidate pf p = none) :
    p.recipientAddress ≠ "" ∧ p.amount ≠ "" ∧
    ∃ cfg, getCurrency (effCurrency p) = some cfg ∧
      (∃ n, getNetwork (effCurrency p) (effNetwork p) = some n) ∧
      transferAddressCheck p = true ∧
      ∃ a, pf p.amount = some a ∧ 0 < a ∧ cfg.minAmount ≤ a := by
  unfold transferValidate at h
  split at h
  · cases h
  · next hne =>
    push_neg at hne
    split at h
    · cases h
    · next cfg hcfg =>
      split at h
      · cases h
      · next n hn =>
        split at h
        · cases h
        · next haddr =>
          split at h
          · cases h
          · next a hpf =>
            split at h
            · cases h
            · next hpos =>
              split at h
              · cases h
              · next hmin =>
                exact ⟨hne.1, hne.2, cfg, hcfg, ⟨n, hn⟩,
                  by simpa using haddr, a, hpf, lt_of_not_le hpos, not_lt.mp hmin⟩

/-- C3: every transfer request with an unsupported currency, a network
unsupported for that currency, a recipient address that fails the network's
format validation, an amount that parses to `NaN` or a non-positive value,
or an amount below the currency's configured minimum is rejected by the
validation phase with a typed `BAD_REQUEST` error; the upstream create call
is never dispatched and nothing is persisted. -/
theorem transfer_validation_failure_rejected (pf : String → Option ℚ)
    (p : TransferPayload) (env : TransferEnv)
    (h : getCurrency (effCurrency p) = none ∨
         getNetwork (effCurrency p) (effNetwork p) = none ∨
         transferAddressCheck p = false ∨
         pf p.amount = none ∨
         (∃ a, pf p.amount = some a ∧ a ≤ 0) ∨
         (∃ a cfg, pf p.amount = some a ∧ getCurrency (effCurrency p) = some cfg ∧
            a < cfg.minAmount)) :
    (∃ m, (transfer pf p env).outcome = .error (.badRequest m)) ∧
    (transfer pf p env).upstreamCalled = false ∧
    (transfer pf p env).writes = [] := by
  have hval : ∃ m, transferValidate pf p = some (.badRequest m) := by
    rcases transferValidate_badRequest pf p with hn | hb
    · exfalso
      obtain ⟨-, -, cfg, hcfg, ⟨n, hn'⟩, haddr, a, hpf, hpos, hmin⟩ :=
        transferValidate_none_facts pf p hn
      rcases h with h | h | h | h | ⟨a', ha', hle⟩ | ⟨a', cfg', ha', hcfg', hlt⟩
      · rw [hcfg] at h; cases h
      · rw [hn'] at h; cases h
      · rw [haddr] at h; cases h
      · rw [hpf] at h; cases h
      · rw [hpf] at ha'; injection ha' with ha'; subst ha'; exact absurd hle (not_le.mpr hpos)
      · rw [hpf] at ha'; injection ha' with ha'; subst ha'
        rw [hcfg] at hcfg'; injection hcfg' with hcfg'; subst hcfg'
        exact absurd hlt (not_lt.mpr hmin)
    · exact hb
  obtain ⟨m, hm⟩ := hval
  exact ⟨⟨m, by simp [transfer, hm]⟩, by simp [transfer, hm], by simp [transfer, hm]⟩

/-- Witness for C3 at a concrete input: a transfer of an unsupported
currency (`"doge"`) is rejected with `BAD_REQUEST`, makes no upstream call
and persists nothing, whatever the environment would have answered. -/
theorem transfer_validation_failure_rejected_witness :
    getCurrency (effCurrency ⟨"12345678901234567890123456789012", "1", "doge", "doge"⟩) = none ∧
    ((∃ m, (transfer (fun _ => some 1)
        ⟨"12345678901234567890123456789012", "1", "doge", "doge"⟩
        ⟨.ok ⟨"id", "p", "q", 1, 1⟩, true, "NR-X", true, true⟩).outcome = .error (.badRequest m)) ∧
     (transfer (fun _ => some 1)
        ⟨"12345678901234567890123456789012", "1", "doge", "doge"⟩
        ⟨.ok ⟨"id", "p", "q", 1, 1⟩, true, "NR-X", true, true⟩).upstreamCalled = false ∧
     (transfer (fun _ => some 1)
        ⟨"12345678901234567890123456789012", "1", "doge", "doge"⟩
        ⟨.ok ⟨"id", "p", "q", 1, 1⟩, true, "NR-X", true, true⟩).writes = []) :=
  ⟨by decide,
   transfer_validation_failure_rejected (fun _ => some 1)
     ⟨"12345678901234567890123456789012", "1", "doge", "doge"⟩
     ⟨.ok ⟨"id", "p", "q", 1, 1⟩, true, "NR-X", true, true⟩ (Or.inl (by decide))⟩

/-- C1, amended: for every transfer creation in which the upstream create
response's `payoutAddress` is absent or differs from the
whitespace-trimmed recipient address that is sent upstream
(`payload.recipientAddress.trim()`, trimmed again by the comparison in the
create call), the operation fails with an error surfaced to the caller and
no routing-mapping row and no transaction-record row are persisted. -/
theorem transfer_payout_mismatch_fails (pf : String → Option ℚ)
    (p : TransferPayload) (env : TransferEnv) (data : CreateResponseData)
    (hhttp : env.http = .ok data)
    (hmm : data.payoutAddress = "" ∨ data.payoutAddress ≠ (addrParam p).strip) :
    (∃ e, (transfer pf p env).outcome = .error e) ∧
    (transfer pf p env).writes = [] := by
  rcases hval : transferValidate pf p with - | e
  · have hcr : ∃ m, createRoutingTransaction (addrParam p) env.http env.payinFormatOk
        = .error m := by
      rw [hhttp]
      simp only [createRoutingTransaction]
      by_cases h1 : data.id = ""
      · rw [if_pos h1]; exact ⟨_, rfl⟩
      · rw [if_neg h1]
        by_cases h2 : data.payinAddress = ""
        · rw [if_pos h2]; exact ⟨_, rfl⟩
        · rw [if_neg h2]
          by_cases h3 : env.payinFormatOk = false
          · rw [if_pos h3]; exact ⟨_, rfl⟩
          · rw [if_neg h3, if_pos hmm]; exact ⟨_, rfl⟩
    obtain ⟨m, hm⟩ := hcr
    refine ⟨⟨.internal m, ?_⟩, ?_⟩ <;> simp [transfer, hval, hm]
  · refine ⟨⟨e, ?_⟩, ?_⟩ <;> simp [transfer, hval]

/-- A well-formed transfer payload used by the concrete runs below:
a Solana transfer of 1.5 SOL to a recipient address carrying a leading
space (which passes validation, since the pattern is tested against the
trimmed address). -/
def paddedPayload : TransferPayload :=
  ⟨" 11111111111111111111111111111111", "1.5", "sol", "sol"⟩

/-- A concrete `parseFloat` semantics for the runs below. -/
def pfConcrete : String → Option ℚ := fun s => if s = "1.5" then some (mkRat 3 2) else none

/-- Witness for C1's amended theorem: a create response whose payout
address differs from the trimmed recipient makes the operation fail with
nothing persisted. -/
theorem transfer_payout_mismatch_fails_witness :
    (CreateResponseData.mk "cn-id" "22222222222222222222222222222222"
        "33333333333333333333333333333333" (mkRat 3 2) (mkRat 3 2)).payoutAddress ≠
      (addrParam paddedPayload).strip ∧
    (∃ e, (transfer pfConcrete paddedPayload
        ⟨.ok ⟨"cn-id", "22222222222222222222222222222222",
              "33333333333333333333333333333333", mkRat 3 2, mkRat 3 2⟩,
         true, "NR-WIT1", true, true⟩).outcome = .error e) ∧
    (transfer pfConcrete paddedPayload
        ⟨.ok ⟨"cn-id", "22222222222222222222222222222222",
              "33333333333333333333333333333333", mkRat 3 2, mkRat 3 2⟩,
         true, "NR-WIT1", true, true⟩).writes = [] :=
  ⟨by decide,
   (transfer_payout_mismatch_fails pfConcrete paddedPayload _ _ rfl (Or.inr (by decide))).1,
   (transfer_payout_mismatch_fails pfConcrete paddedPayload _ _ rfl (Or.inr (by decide))).2⟩

/-- C1, counterexample to the claim as stated: the submitted recipient
address is `" 1111…"` (leading space); the upstream response's payout
address is the trimmed `"1111…"`, which differs from the recipient address
the caller submitted — yet the operation succeeds and persists both rows,
because the code compares the payout address against the trimmed
recipient, not the submitted one. -/
theorem transfer_payout_mismatch_counterexample :
    "11111111111111111111111111111111" ≠ paddedPayload.recipientAddress ∧
    (transfer pfConcrete paddedPayload
        ⟨.ok ⟨"cn-id", "22222222222222222222222222222222",
              "11111111111111111111111111111111", mkRat 3 2, mkRat 3 2⟩,
         true, "NR-CEX1", true, true⟩).outcome =
      .ok ⟨"NR-CEX1", "22222222222222222222222222222222", "cn-id", "sol",
           " 11111111111111111111111111111111"⟩ ∧
    (transfer pfConcrete paddedPayload
        ⟨.ok ⟨"cn-id", "22222222222222222222222222222222",
              "11111111111111111111111111111111", mkRat 3 2, mkRat 3 2⟩,
         true, "NR-CEX1", true, true⟩).writes =
      [.routingMapping "NR-CEX1" "cn-id",
       .transactionRecord "NR-CEX1" " 11111111111111111111111111111111"
         "22222222222222222222222222222222" "1.5"] := by
  refine ⟨by decide, by decide, by decide⟩

/-- C4: whenever the upstream create call succeeds, the persistence phase
writes the routing mapping first and the transaction record second (the
record is never written without the mapping already written), and a failure
of either write does not fail the client-visible response: for every
combination of write outcomes the operation still returns success carrying
the generated internal reference, the deposit address and the upstream
routing transaction id. -/
theorem transfer_success_persists_mapping_first (pf : String → Option ℚ)
    (p : TransferPayload) (env : TransferEnv) (data : CreateResponseData)
    (hval : transferValidate pf p = none)
    (hcr : createRoutingTransaction (addrParam p) env.http env.payinFormatOk = .ok data) :
    (transfer pf p env).outcome =
      .ok ⟨env.genRef, data.payinAddress, data.id, effNetwork p, p.recipientAddress⟩ ∧
    ((transfer pf p env).writes = [] ∨
     (transfer pf p env).writes = [.routingMapping env.genRef data.id] ∨
     (transfer pf p env).writes =
       [.routingMapping env.genRef data.id,
        .transactionRecord env.genRef p.recipientAddress data.payinAddress p.amount]) := by
  constructor
  · simp [transfer, hval, hcr]
  · rcases hmw : env.mappingWriteOk with - | -
    · exact Or.inl (by simp [transfer, hval, hcr, hmw])
    · rcases hrw : env.recordWriteOk with - | -
      · exact Or.inr (Or.inl (by simp [transfer, hval, hcr, hmw, hrw]))
      · exact Or.inr (Or.inr (by simp [transfer, hval, hcr, hmw, hrw]))

/-- Witness for C4 at a concrete input: with a matching payout address and
a transaction-record write that fails (`recordWriteOk = false`), the
response is still the full success payload and only the mapping row is
persisted. -/
theorem transfer_success_persists_mapping_first_witness :
    transferValidate pfConcrete paddedPayload = none ∧
    createRoutingTransaction (addrParam paddedPayload)
        (.ok ⟨"cn-id", "22222222222222222222222222222222",
              "11111111111111111111111111111111", mkRat 3 2, mkRat 3 2⟩) true =
      .ok ⟨"cn-id", "22222222222222222222222222222222",
           "11111111111111111111111111111111", mkRat 3 2, mkRat 3 2⟩ ∧
    ((transfer pfConcrete paddedPayload
        ⟨.ok ⟨"cn-id", "22222222222222222222222222222222",
              "11111111111111111111111111111111", mkRat 3 2, mkRat 3 2⟩,
         true, "NR-WIT4", true, false⟩).outcome =
      .ok ⟨"NR-WIT4", "22222222222222222222222222222222", "cn-id", "sol",
           " 11111111111111111111111111111111"⟩ ∧
     ((transfer pfConcrete paddedPayload
        ⟨.ok ⟨"cn-id", "22222222222222222222222222222222",
              "11111111111111111111111111111111", mkRat 3 2, mkRat 3 2⟩,
         true, "NR-WIT4", true, false⟩).writes = [] ∨
      (transfer pfConcrete paddedPayload
        ⟨.ok ⟨"cn-id", "22222222222222222222222222222222",
              "11111111111111111111111111111111", mkRat 3 2, mkRat 3 2⟩,
         true, "NR-WIT4", true, false⟩).writes = [.routingMapping "NR-WIT4" "cn-id"] ∨
      (transfer pfConcrete paddedPayload
        ⟨.ok ⟨"cn-id", "22222222222222222222222222222222",
              "11111111111111111111111111111111", mkRat 3 2, mkRat 3 2⟩,
         true, "NR-WIT4", true, false⟩).writes =
        [.routingMapping "NR-WIT4" "cn-id",
         .transactionRecord "NR-WIT4" " 11111111111111111111111111111111"
           "22222222222222222222222222222222" "1.5"])) :=
  ⟨by decide, by decide,
   transfer_success_persists_mapping_first pfConcrete paddedPayload
     ⟨.ok ⟨"cn-id", "22222222222222222222222222222222",
           "11111111111111111111111111111111", mkRat 3 2, mkRat 3 2⟩,
      true, "NR-WIT4", true, false⟩
     ⟨"cn-id", "22222222222222222222222222222222",
      "11111111111111111111111111111111", mkRat 3 2, mkRat 3 2⟩
     (by decide) (by decide)⟩

/-- Unfolding step for a request sequence. -/
lemma runRateLimiter_cons (w m : Nat) (c : String) (store : RLStore) (t : Nat)
    (rest : List Nat) :
    runRateLimiter w m c store (t :: rest) =
      ((runRateLimiter w m c (rateLimitStep w m store c t).1 rest).1,
       (rateLimitStep w m store c t).2 ::
         (runRateLimiter w m c (rateLimitStep w m store c t).1 rest).2) := rfl

/-- One request against a live (non-expired) entry: the count is bumped and
the request is rejected exactly when the bumped count exceeds the limit,
with `retryAfter = ceil((resetTime - now) / 1000)`. -/
lemma rateLimitStep_live (w m : Nat) (store : RLStore) (c : String) (t k R : Nat)
    (hstore : store c = some ⟨k, R⟩) (hlive : ¬ R < t) :
    rateLimitStep w m store c t =
      (fun c' => if c' = c then some ⟨k + 1, R⟩ else store c',
       if m < k + 1 then .rejected 429 ((R - t + 999) / 1000)
       else .allowed (m - (k + 1))) := by
  simp only [rateLimitStep, hstore, if_neg hlive]
  split <;> rfl

/-- One request from a client with no entry: a fresh window is opened. -/
lemma rateLimitStep_fresh (w m : Nat) (store : RLStore) (c : String) (t : Nat)
    (hstore : store c = none) :
    rateLimitStep w m store c t =
      (fun c' => if c' = c then some ⟨1, t + w⟩ else store c',
       if m < 1 then .rejected 429 ((t + w - t + 999) / 1000)
       else .allowed (m - 1)) := by
  simp only [rateLimitStep, hstore]
  split <;> rfl

/-- Requests all landing inside the client's current window: starting from
a live entry with count `k`, the `i`-th of them is rejected with HTTP 429
and a retry-after of at most `ceil(windowMs / 1000)` as soon as the bumped
count `k + i + 1` exceeds the limit. -/
lemma runRateLimiter_rejects_of_live (w m : Nat) (c : String) :
    ∀ (times : List Nat) (store : RLStore) (k R : Nat),
      store c = some ⟨k, R⟩ →
      (∀ t ∈ times, t ≤ R ∧ R ≤ t + w) →
      ∀ i, i < times.length → m ≤ k + i →
        ∃ ra, ((runRateLimiter w m c store times).2)[i]? =
            some (.rejected 429 ra) ∧ ra ≤ (w + 999) / 1000 := by
  intro times
  induction times with
  | nil =>
    intro store k R _ _ i hi
    simp at hi
  | cons t rest ih =>
    intro store k R hstore htimes i hi hm
    obtain ⟨htR, hRw⟩ := htimes t (List.mem_cons_self t rest)
    rw [runRateLimiter_cons,
        rateLimitStep_live w m store c t k R hstore (Nat.not_lt.mpr htR)]
    rcases i with - | j
    · have hrej : m < k + 1 := by omega
      refine ⟨(R - t + 999) / 1000, ?_, ?_⟩
      · simp [hrej]
      · have hsub : R - t ≤ w := by omega
        exact Nat.div_le_div_right (by omega)
    · have hstore' :
          (fun c' => if c' = c then some (RLEntry.mk (k + 1) R) else store c') c
            = some ⟨k + 1, R⟩ := by simp
      have hrest : ∀ t' ∈ rest, t' ≤ R ∧ R ≤ t' + w := fun t' ht' =>
        htimes t' (List.mem_cons_of_mem t ht')
      obtain ⟨ra, hra, hbound⟩ :=
        ih (fun c' => if c' = c then some ⟨k + 1, R⟩ else store c') (k + 1) R
          hstore' hrest j (by simpa using hi) (by omega)
      exact ⟨ra, by simpa using hra, hbound⟩

/-- C8: the inbound rate limiter is a per-client window counter: a client
with no live entry that issues a sequence of requests all within `windowMs`
of the first sees every request beyond `maxRequests` rejected with HTTP 429
carrying `retryAfter ≤ ceil(windowMs / 1000)` seconds (so at most
`windowMs / 1000` for configurations with `windowMs` a multiple of 1000 —
in particular at most 60 for the 10-per-60s `transactionRateLimiter`);
and the periodic sweep removes every expired per-client counter from the
store. -/
theorem rateLimiter_window_rejects :
    (∀ (w m : Nat) (c : String) (t1 : Nat) (rest : List Nat),
       (∀ t ∈ t1 :: rest, t1 ≤ t ∧ t ≤ t1 + w) →
       ∀ i, i < (t1 :: rest).length → m ≤ i →
         ∃ ra, ((runRateLimiter w m c (fun _ => none) (t1 :: rest)).2)[i]? =
             some (.rejected 429 ra) ∧ ra ≤ (w + 999) / 1000)
    ∧ (∀ (store : RLStore) (now : Nat) (c : String) (e : RLEntry),
         store c = some e → e.resetTime < now → cleanupStore store now c = none) := by
  constructor
  · intro w m c t1 rest htimes i hi hm
    rw [runRateLimiter_cons, rateLimitStep_fresh w m _ c t1 rfl]
    rcases i with - | j
    · have hm0 : m = 0 := by omega
      refine ⟨(t1 + w - t1 + 999) / 1000, ?_, ?_⟩
      · simp [hm0]
      · exact Nat.div_le_div_right (by omega)

    · have hstore' :
          (fun c' => if c' = c then some (RLEntry.mk 1 (t1 + w)) else (none : Option RLEntry)) c
            = some ⟨1, t1 + w⟩ := by simp
      have hrest : ∀ t' ∈ rest, t' ≤ t1 + w ∧ t1 + w ≤ t' + w := by
        intro t' ht'
        obtain ⟨h1, h2⟩ := htimes t' (List.mem_cons_of_mem t1 ht')
        exact ⟨h2, by omega⟩
      obtain ⟨ra, hra, hbound⟩ :=
        runRateLimiter_rejects_of_live w m c rest
          (fun c' => if c' = c then some ⟨1, t1 + w⟩ else (fun _ => none) c') 1 (t1 + w)
          hstore' hrest j (by simpa using hi) (by omega)
      exact ⟨ra, by simpa using hra, hbound⟩
  · intro store now c e hstore hexp
    simp [cleanupStore, hstore, hexp]

/-- Witness for C8 at the claim's concrete scenario: a fresh client fires
11 requests inside one minute against the 10-per-minute configuration of
`transactionRateLimiter`; the 11th (index 10) is rejected with HTTP 429 and
a retry-after of at most 60 seconds, and sweeping a store holding an
expired entry removes it. -/
theorem rateLimiter_window_rejects_witness :
    (∀ t ∈ [0, 5000, 10000, 15000, 20000, 25000, 30000, 35000, 40000, 45000, 59000],
       (0 : Nat) ≤ t ∧ t ≤ 0 + transactionRateLimiterWindowMs) ∧
    (∃ ra, ((runRateLimiter transactionRateLimiterWindowMs transactionRateLimiterMaxRequests
        "203.0.113.7" (fun _ => none)
        (0 :: [5000, 10000, 15000, 20000, 25000, 30000, 35000, 40000, 45000, 59000])).2)[10]? =
        some (.rejected 429 ra) ∧ ra ≤ 60) ∧
    cleanupStore (fun c => if c = "203.0.113.7" then some ⟨3, 1000⟩ else none) 2000
        "203.0.113.7" = none := by
  refine ⟨by decide, ?_, ?_⟩
  · obtain ⟨ra, hra, hbound⟩ :=
      rateLimiter_window_rejects.1 transactionRateLimiterWindowMs
        transactionRateLimiterMaxRequests "203.0.113.7" 0
        [5000, 10000, 15000, 20000, 25000, 30000, 35000, 40000, 45000, 59000]
        (by decide) 10 (by decide) (by decide)
    exact ⟨ra, hra, le_trans hbound (by decide)⟩
  · exact rateLimiter_window_rejects.2
      (fun c => if c = "203.0.113.7" then some ⟨3, 1000⟩ else none) 2000
      "203.0.113.7" ⟨3, 1000⟩ (by decide) (by decide)

/-- Dispatch times of the queue are at least one slot apart, so they grow
at least linearly in the slot interval. -/
lemma dispatch_times_lower_bound (times : Nat → Nat)
    (hgap : ∀ i, times i + apiQueueMinIntervalMs ≤ times (i + 1)) :
    ∀ a d, times a + apiQueueMinIntervalMs * d ≤ times (a + d) := by
  intro a d
  induction d with
  | zero => simp
  | succ d ihd =>
    have hstep := hgap (a + d)
    calc times a + apiQueueMinIntervalMs * (d + 1)
        = (times a + apiQueueMinIntervalMs * d) + apiQueueMinIntervalMs := by ring
      _ ≤ times (a + d) + apiQueueMinIntervalMs := by omega
      _ ≤ times (a + d + 1) := hstep

/-- C9: for every dispatch schedule respecting the queue's cadence of one
dispatch slot every 40 ms, and for every 1-second window, at most 25
upstream calls are dispatched inside that window — however many callers
(`N`) are waiting — and 25 is strictly below the upstream's documented
ceiling of 30 requests/second. -/
theorem apiQueue_dispatch_ceiling (times : Nat → Nat)
    (hgap : ∀ i, times i + apiQueueMinIntervalMs ≤ times (i + 1)) (N T : Nat) :
    dispatchesInWindow times N T 1000 ≤ apiQueueRatePerSecond ∧
    apiQueueRatePerSecond < upstreamDocumentedLimitPerSecond := by
  refine ⟨?_, by decide⟩
  unfold dispatchesInWindow apiQueueRatePerSecond
  set S := (Finset.range N).filter (fun k => T ≤ times k ∧ times k < T + 1000) with hSdef
  by_cases hne : S.Nonempty
  · have hamem := S.min'_mem hne
    set a := S.min' hne with ha
    have hsub : S ⊆ Finset.Icc a (a + 24) := by
      intro k hk
      have hak : a ≤ k := S.min'_le k hk
      rw [hSdef, Finset.mem_filter] at hamem hk
      have h1 : T ≤ times a := hamem.2.1
      have h2 : times k < T + 1000 := hk.2.2
      have h3 : times a + apiQueueMinIntervalMs * (k - a) ≤ times k := by
        have := dispatch_times_lower_bound times hgap a (k - a)
        rwa [Nat.add_sub_cancel' hak] at this
      rw [show apiQueueMinIntervalMs = 40 from rfl] at h3
      exact Finset.mem_Icc.mpr ⟨hak, by omega⟩
    calc S.card ≤ (Finset.Icc a (a + 24)).card := Finset.card_le_card hsub
      _ = 25 := by rw [Nat.card_Icc]; omega
  · rw [Finset.not_nonempty_iff_eq_empty] at hne
    rw [hne]
    simp

/-- Witness for C9: the saturated schedule that dispatches exactly on every
slot (`times k = 40 k`) satisfies the cadence hypothesis, and any window —
here `[0, 1000)` over the first 100 calls — holds at most 25 dispatches. -/
theorem apiQueue_dispatch_ceiling_witness :
    (∀ i : Nat, (fun k => 40 * k) i + apiQueueMinIntervalMs ≤ (fun k => 40 * k) (i + 1)) ∧
    dispatchesInWindow (fun k => 40 * k) 100 0 1000 ≤ apiQueueRatePerSecond ∧
    apiQueueRatePerSecond < upstreamDocumentedLimitPerSecond :=
  ⟨fun i => by show 40 * i + apiQueueMinIntervalMs ≤ 40 * (i + 1); rw [show apiQueueMinIntervalMs = 40 from rfl]; omega,
   apiQueue_dispatch_ceiling (fun k => 40 * k)
     (fun i => by show 40 * i + apiQueueMinIntervalMs ≤ 40 * (i + 1); rw [show apiQueueMinIntervalMs = 40 from rfl]; omega)
     100 0⟩

end Invsol
